import Mathlib

/-!
Shallow embedding of `loadTest/online_boutique_locust.py`: a Locust workload
driving the Online Boutique frontend.  Each simulated user holds
`product_ids : List String` and `cart_items : List (item_id, quantity)` and
executes weighted tasks (index, setCurrency, browseProduct, addToCart,
viewCart, checkout).  Randomness and HTTP responses are passed in as explicit
oracle parameters, so each Python handler becomes a pure Lean function from
the session state and its oracles to the new state, the list of HTTP requests
it issues, and the list of explicit success/failure marks it records.
-/

/-- A character matched by the class `[A-Za-z0-9\-]` of `PRODUCT_HREF_RE`. -/
def idChar (c : Char) : Bool := c.isAlphanum || c == '-'

/-- Greedily take the maximal run of `idChar` characters (the `+` of the
regex), returning the run and the remaining characters. -/
def takeRun : List Char → List Char × List Char
  | [] => ([], [])
  | c :: cs =>
    if idChar c then
      let p := takeRun cs
      (c :: p.1, p.2)
    else ([], c :: cs)

/-- The literal part `/product/` of `PRODUCT_HREF_RE`. -/
def PRODUCT_PATH : List Char := "/product/".data

/-- Try to strip the literal `pat` from the front of `l`. -/
def dropLit : List Char → List Char → Option (List Char)
  | [], l => some l
  | _ :: _, [] => none
  | p :: ps, c :: cs => if p == c then dropLit ps cs else none

/-- Left-to-right, non-overlapping scan for matches of
`/product/([A-Za-z0-9\-]+)`, emitting the capture groups, exactly as
`re.findall` does: at each position try the literal followed by a non-empty
greedy run; on success continue after the match, on failure advance one
character.  `fuel` bounds recursion; the caller passes the input length, which
suffices since every step consumes at least one character. -/
def findIdsAux : Nat → List Char → List String
  | 0, _ => []
  | _ + 1, [] => []
  | fuel + 1, c :: rest =>
    match dropLit PRODUCT_PATH (c :: rest) with
    | some after =>
      match takeRun after with
      | ([], _) => findIdsAux fuel rest
      | (d :: run, rest2) => String.mk (d :: run) :: findIdsAux fuel rest2
    | none => findIdsAux fuel rest

/-- Model of `PRODUCT_HREF_RE.findall(html)` where
`PRODUCT_HREF_RE = re.compile(r"/product/([A-Za-z0-9\-]+)")`. -/
def PRODUCT_HREF_RE_findall (s : String) : List String :=
  findIdsAux s.data.length s.data

/-- The body contains a substring the regex matches: it decomposes as
`pre ++ "/product/" ++ d :: rest` with `d` a character of the id class
(a match needs the literal followed by at least one id character). -/
def HasProductMatch (l : List Char) : Prop :=
  ∃ pre d rest, l = pre ++ PRODUCT_PATH ++ d :: rest ∧ idChar d = true

/-- Executable scan for the same property: some suffix of `l` starts with
the literal followed by an id character. -/
def hasMatchB : List Char → Bool
  | [] => false
  | c :: rest =>
    (match dropLit PRODUCT_PATH (c :: rest) with
     | some (d :: _) => idChar d
     | _ => false) || hasMatchB rest

theorem hasMatch_cons (c : Char) (l : List Char) (h : HasProductMatch l) :
    HasProductMatch (c :: l) := by
  obtain ⟨pre, d, rest, he, hd⟩ := h
  exact ⟨c :: pre, d, rest, by rw [he]; rfl, hd⟩

theorem dropLit_some (p : List Char) :
    ∀ l l2 : List Char, dropLit p l = some l2 → l = p ++ l2 := by
  induction p with
  | nil =>
    intro l l2 h
    simpa using Option.some.inj h
  | cons a ps ih =>
    intro l l2 h
    cases l with
    | nil => exact absurd h (by simp [dropLit])
    | cons c cs =>
      unfold dropLit at h
      split at h
      · rename_i hac
        rw [List.cons_append, ← ih cs l2 h, beq_iff_eq.mp hac]
      · exact absurd h (by simp)

theorem dropLit_append (p : List Char) :
    ∀ l : List Char, dropLit p (p ++ l) = some l := by
  induction p with
  | nil => intro l; rfl
  | cons a ps ih =>
    intro l
    unfold dropLit
    rw [List.cons_append]
    simp [ih]

theorem takeRun_eq_append :
    ∀ l : List Char, (takeRun l).1 ++ (takeRun l).2 = l
  | [] => rfl
  | c :: cs => by
    unfold takeRun
    split
    · dsimp only
      rw [List.cons_append, takeRun_eq_append cs]
    · rfl

theorem takeRun_head_idChar :
    ∀ (l : List Char) (d : Char) (run rest : List Char),
      takeRun l = (d :: run, rest) → idChar d = true := by
  intro l d run rest h
  cases l with
  | nil => exact absurd h (by simp [takeRun])
  | cons c cs =>
    unfold takeRun at h
    split at h
    · rename_i hc
      dsimp only at h
      rw [Prod.mk.injEq] at h
      injection h.1 with h1a h1b
      rw [← h1a]
      exact hc
    · rw [Prod.mk.injEq] at h
      exact absurd h.1 (by simp)

theorem findIdsAux_no_match (fuel : Nat) :
    ∀ l : List Char, ¬ HasProductMatch l → findIdsAux fuel l = [] := by
  induction fuel with
  | zero => intro l _; rfl
  | succ n ih =>
    intro l h
    match l with
    | [] => rfl
    | c :: rest =>
      have hrest : ¬ HasProductMatch rest :=
        fun hm => h (hasMatch_cons c rest hm)
      rw [findIdsAux]
      cases hdl : dropLit PRODUCT_PATH (c :: rest) with
      | none => exact ih rest hrest
      | some after =>
        dsimp only
        cases htr : takeRun after with
        | mk fst snd =>
          cases fst with
          | nil => exact ih rest hrest
          | cons d run =>
            exfalso
            have hd : idChar d = true := takeRun_head_idChar after d run snd htr
            have hafter : (d :: run) ++ snd = after := by
              rw [← takeRun_eq_append after, htr]
            have hl : c :: rest = PRODUCT_PATH ++ after :=
              dropLit_some _ _ _ hdl
            refine h ⟨[], d, run ++ snd, ?_, hd⟩
            rw [List.nil_append, hl, ← hafter]
            rfl

theorem hasMatchB_of_match :
    ∀ (pre : List Char) (d : Char) (rest : List Char), idChar d = true →
      hasMatchB (pre ++ PRODUCT_PATH ++ d :: rest) = true := by
  intro pre
  induction pre with
  | nil =>
    intro d rest hd
    rw [List.nil_append]
    have hcons : PRODUCT_PATH ++ d :: rest =
        '/' :: ("product/".data ++ d :: rest) := rfl
    rw [hcons, hasMatchB, ← hcons, dropLit_append]
    simp [hd]
  | cons a pre2 ih =>
    intro d rest hd
    rw [List.cons_append]
    show ((match dropLit PRODUCT_PATH
        (a :: (pre2 ++ PRODUCT_PATH ++ d :: rest)) with
      | some (e :: _) => idChar e
      | _ => false) ||
        hasMatchB (pre2 ++ PRODUCT_PATH ++ d :: rest)) = true
    rw [ih d rest hd, Bool.or_true]

theorem not_hasMatch_of_scan (l : List Char) (h : hasMatchB l = false) :
    ¬ HasProductMatch l := by
  intro hm
  obtain ⟨pre, d, rest, heq, hd⟩ := hm
  rw [heq, hasMatchB_of_match pre d rest hd] at h
  exact Bool.noConfusion h

/-- An HTTP response as the Locust client exposes it to the handlers:
`ok`, `status_code`, and the body text (`resp.text or ""` makes the body a
plain string). -/
structure Response where
  ok : Bool
  status_code : Nat
  body : String
deriving DecidableEq, Repr

/-- One entry of `self.cart_items : List[Tuple[str, int]]`. -/
structure CartLine where
  item_id : String
  quantity : Nat
deriving DecidableEq, Repr

/-- The per-user mutable state: `self.product_ids` and `self.cart_items`. -/
structure SessionState where
  product_ids : List String
  cart_items : List CartLine
deriving DecidableEq, Repr

/-- An HTTP request issued through `self.client`, with the aggregation
`name` label and, for posts, the form fields. -/
inductive Request where
  | get (path : String) (name : String)
  | post (path : String) (name : String) (fields : List (String × String))
deriving DecidableEq, Repr

/-- An explicit result mark recorded through the `catch_response` facade:
`resp.success()` or `resp.failure(reason)`, tagged with the request name. -/
inductive Report where
  | success (name : String)
  | failure (name : String) (reason : String)
deriving DecidableEq, Repr

/-- The observable effect of running one handler: the state it leaves behind,
the requests it issued (in order), and the explicit result marks it recorded
(in order). -/
structure Outcome where
  state : SessionState
  requests : List Request
  reports : List Report
deriving DecidableEq, Repr

/-- The fixed `GET /` request labelled `index`. -/
def indexRequest : Request := Request.get "/" "index"

/-- Embedding of `OnlineBoutiqueUser._load_products`, applied to the response
`r` that the `GET /` obtains: on a non-ok response mark failure and leave
`product_ids` alone; on an ok response mark success and replace `product_ids`
with the regex matches over the body (possibly the empty list). -/
def load_products (s : SessionState) (r : Response) : Outcome :=
  if r.ok then
    { state := { s with product_ids := PRODUCT_HREF_RE_findall r.body }
      requests := [indexRequest]
      reports := [Report.success "index"] }
  else
    { state := s
      requests := [indexRequest]
      reports := [Report.failure "index"
        ("Index failed with " ++ toString r.status_code)] }

/-- Embedding of `OnlineBoutiqueUser._choose_product`.  `r` is the response
the re-discovery request would obtain, `pick` is the oracle behind
`random.choice` (reduced modulo the list length, so any `pick` denotes a
genuine element).  Returns the outcome of the helper plus the chosen id,
`""` when no product is known even after the refresh. -/
def choose_product (s : SessionState) (r : Response) (pick : Nat) :
    Outcome × String :=
  let o :=
    if s.product_ids.isEmpty then load_products s r
    else { state := s, requests := [], reports := [] }
  if o.state.product_ids.isEmpty then (o, "")
  else
    (o, o.state.product_ids.getD (pick % o.state.product_ids.length) "")

/-- Embedding of the `index` task: `GET /`, no state change, no explicit
result mark. -/
def index (s : SessionState) : Outcome :=
  { state := s, requests := [indexRequest], reports := [] }

/-- The fixed list `OnlineBoutiqueUser.CURRENCIES`. -/
def CURRENCIES : List String := ["USD", "EUR", "JPY", "GBP", "CAD", "AUD"]

/-- Embedding of the `set_currency` task: pick a currency with the
`random.choice` oracle `pick` and `POST /setCurrency`; no state change. -/
def set_currency (s : SessionState) (pick : Nat) : Outcome :=
  let currency := CURRENCIES.getD (pick % CURRENCIES.length) ""
  { state := s
    requests := [Request.post "/setCurrency" "setCurrency"
      [("currency_code", currency)]]
    reports := [] }

/-- Embedding of the `browse_product` task: choose a product (refreshing the
catalog when it is empty); skip silently when the chosen id is empty,
otherwise `GET /product/{id}`. -/
def browse_product (s : SessionState) (r : Response) (pick : Nat) : Outcome :=
  let (o, pid) := choose_product s r pick
  if pid = "" then o
  else
    { o with requests :=
        o.requests ++ [Request.get ("/product/" ++ pid) "product"] }

/-- Model of `random.randint(1, 3)`: the oracle `q` reduced onto `{1, 2, 3}`
(uniform for a uniform oracle). -/
def randint13 (q : Nat) : Nat := 1 + q % 3

/-- Embedding of the `add_to_cart` task: choose a product as in
`browse_product`; skip silently on an empty id, otherwise append
`(pid, qty)` to `cart_items` and `POST /cart`.  The handler never reads the
response of the post, so the appended line does not depend on the request's
outcome (no rollback on failure). -/
def add_to_cart (s : SessionState) (r : Response) (pick q : Nat) : Outcome :=
  let (o, pid) := choose_product s r pick
  if pid = "" then o
  else
    let qty := randint13 q
    { state := { o.state with
        cart_items := o.state.cart_items ++ [⟨pid, qty⟩] }
      requests := o.requests ++
        [Request.post "/cart" "cart:add"
          [("product_id", pid), ("quantity", toString qty)]]
      reports := o.reports }

/-- Embedding of the `view_cart` task: `GET /cart`, no state change. -/
def view_cart (s : SessionState) : Outcome :=
  { state := s, requests := [Request.get "/cart" "cart:view"], reports := [] }

/-- The fixed synthetic checkout form payload. -/
def checkoutPayload : List (String × String) :=
  [("email", "user@example.com"),
   ("street_address", "1600 Amphitheatre Parkway"),
   ("zip_code", "94043"),
   ("city", "Mountain View"),
   ("state", "CA"),
   ("country", "USA"),
   ("credit_card_number", "4432-8015-6152-0454"),
   ("credit_card_expiration_month", "12"),
   ("credit_card_expiration_year", "2027"),
   ("credit_card_cvv", "123")]

/-- The `POST /cart/checkout` request with the fixed payload. -/
def checkoutRequest : Request :=
  Request.post "/cart/checkout" "cart:checkout" checkoutPayload

/-- Embedding of the `checkout` task, applied to the response `r` the post
would obtain: skip entirely when the cart is empty; otherwise post the fixed
payload, and on an ok response mark success and clear the cart, on a non-ok
response mark failure and leave the cart untouched. -/
def checkout (s : SessionState) (r : Response) : Outcome :=
  if s.cart_items.isEmpty then
    { state := s, requests := [], reports := [] }
  else if r.ok then
    { state := { s with cart_items := [] }
      requests := [checkoutRequest]
      reports := [Report.success "cart:checkout"] }
  else
    { state := s
      requests := [checkoutRequest]
      reports := [Report.failure "cart:checkout"
        ("Checkout failed with " ++ toString r.status_code)] }

/-- Embedding of `OnlineBoutiqueUser.on_start`: initialise `product_ids` and
`cart_items` to empty and run `_load_products` against the response `r` of
the initial index request.  The Python hook returns normally on both branches
(the failed request is caught and marked through `catch_response`), which is
why this is a total function: a failed initial request never raises, so the
Locust user proceeds to its task loop (the ACTIVE phase) regardless. -/
def on_start (r : Response) : Outcome :=
  load_products { product_ids := [], cart_items := [] } r

/-- One scheduling step of the task loop: some task runs with some oracle
values, moving the session from `s` to the task's resulting state. -/
inductive Step : SessionState → SessionState → Prop where
  | index (s : SessionState) : Step s (index s).state
  | set_currency (s : SessionState) (pick : Nat) :
      Step s (set_currency s pick).state
  | browse_product (s : SessionState) (r : Response) (pick : Nat) :
      Step s (browse_product s r pick).state
  | add_to_cart (s : SessionState) (r : Response) (pick q : Nat) :
      Step s (add_to_cart s r pick q).state
  | view_cart (s : SessionState) : Step s (view_cart s).state
  | checkout (s : SessionState) (r : Response) :
      Step s (checkout s r).state

/-- A session state is reachable when some run of the user produces it: the
`on_start` hook ran against some initial response, then finitely many task
steps executed. -/
def Reachable (s : SessionState) : Prop :=
  ∃ r : Response, Relation.ReflTransGen Step (on_start r).state s

/-- A cart line is well-formed when its quantity lies in `randint(1, 3)`'s
range. -/
def lineOK (l : CartLine) : Bool :=
  decide (1 ≤ l.quantity) && decide (l.quantity ≤ 3)

/-- Every line of the cart is well-formed. -/
def cartOK (s : SessionState) : Bool := s.cart_items.all lineOK

/-- Every known product id is a non-empty string. -/
def idsOK (s : SessionState) : Bool :=
  s.product_ids.all fun i => decide (i ≠ "")

/-- The session-state invariant maintained by every handler. -/
def stateOK (s : SessionState) : Bool := idsOK s && cartOK s

theorem mk_cons_ne_empty (c : Char) (l : List Char) :
    String.mk (c :: l) ≠ "" := by
  intro h
  have hd : c :: l = ([] : List Char) := congrArg String.data h
  exact List.cons_ne_nil c l hd

theorem findIdsAux_ne_empty (fuel : Nat) :
    ∀ (l : List Char) (x : String), x ∈ findIdsAux fuel l → x ≠ "" := by
  induction fuel with
  | zero => intro l x hx; simp [findIdsAux] at hx
  | succ n ih =>
    intro l x hx
    match l with
    | [] => simp [findIdsAux] at hx
    | c :: rest =>
      rw [findIdsAux] at hx
      split at hx
      · split at hx
        · exact ih _ _ hx
        · rcases List.mem_cons.mp hx with h | h
          · subst h; exact mk_cons_ne_empty _ _
          · exact ih _ _ h
      · exact ih _ _ hx

theorem findall_ne_empty (s : String) (x : String)
    (hx : x ∈ PRODUCT_HREF_RE_findall s) : x ≠ "" :=
  findIdsAux_ne_empty _ _ _ hx

theorem load_products_cart (s : SessionState) (r : Response) :
    (load_products s r).state.cart_items = s.cart_items := by
  unfold load_products; split <;> rfl

theorem load_products_requests (s : SessionState) (r : Response) :
    (load_products s r).requests = [indexRequest] := by
  unfold load_products; split <;> rfl

theorem load_products_idsOK (s : SessionState) (r : Response) :
    idsOK s = true → idsOK (load_products s r).state = true := by
  intro h
  unfold load_products
  split
  · simp only [idsOK, List.all_eq_true, decide_eq_true_iff]
    intro i hi
    exact findall_ne_empty _ _ hi
  · exact h

theorem choose_product_cart (s : SessionState) (r : Response) (pick : Nat) :
    (choose_product s r pick).1.state.cart_items = s.cart_items := by
  unfold choose_product
  split <;> dsimp only <;> split <;> simp [load_products_cart]

theorem choose_product_idsOK (s : SessionState) (r : Response) (pick : Nat)
    (h : idsOK s = true) :
    idsOK (choose_product s r pick).1.state = true := by
  unfold choose_product
  split <;> simp <;> split <;>
    simp [load_products_idsOK s r h, h]

theorem choose_product_pid (s : SessionState) (r : Response) (pick : Nat) :
    (choose_product s r pick).2 = "" ∨
      (choose_product s r pick).2 ∈ (choose_product s r pick).1.state.product_ids := by
  unfold choose_product
  set o :=
    if s.product_ids.isEmpty then load_products s r
    else { state := s, requests := [], reports := [] } with ho
  by_cases he : o.state.product_ids.isEmpty
  · simp [he]
  · right
    simp only [he, if_neg, Bool.false_eq_true, not_false_eq_true, if_false]
    have hlen : 0 < o.state.product_ids.length := by
      cases hl : o.state.product_ids with
      | nil => rw [hl] at he; simp at he
      | cons a t => simp [hl]
    have hmod : pick % o.state.product_ids.length <
        o.state.product_ids.length := Nat.mod_lt _ hlen
    rw [List.getD_eq_getElem _ _ hmod]
    exact List.getElem_mem hmod

theorem randint13_bounds (q : Nat) : 1 ≤ randint13 q ∧ randint13 q ≤ 3 := by
  unfold randint13
  have := Nat.mod_lt q (show 0 < 3 by decide)
  omega

theorem stateOK_choose (s : SessionState) (r : Response) (pick : Nat)
    (h : stateOK s = true) :
    stateOK (choose_product s r pick).1.state = true := by
  unfold stateOK at h ⊢
  rw [Bool.and_eq_true] at h ⊢
  refine ⟨choose_product_idsOK s r pick h.1, ?_⟩
  unfold cartOK
  rw [choose_product_cart]
  exact h.2

theorem stateOK_browse (s : SessionState) (r : Response) (pick : Nat)
    (h : stateOK s = true) :
    stateOK (browse_product s r pick).state = true := by
  have hc := stateOK_choose s r pick h
  unfold browse_product
  rcases hco : choose_product s r pick with ⟨o, pid⟩
  rw [hco] at hc
  dsimp at hc ⊢
  split
  · exact hc
  · exact hc

theorem stateOK_add (s : SessionState) (r : Response) (pick q : Nat)
    (h : stateOK s = true) :
    stateOK (add_to_cart s r pick q).state = true := by
  have hc := stateOK_choose s r pick h
  unfold add_to_cart
  rcases hco : choose_product s r pick with ⟨o, pid⟩
  rw [hco] at hc
  dsimp at hc ⊢
  split
  · exact hc
  · unfold stateOK at hc ⊢
    rw [Bool.and_eq_true] at hc ⊢
    refine ⟨hc.1, ?_⟩
    have hq := randint13_bounds q
    unfold cartOK at hc ⊢
    simp only [List.all_append, Bool.and_eq_true] at hc ⊢
    exact ⟨hc.2, by simp [lineOK, hq.1, hq.2]⟩

theorem stateOK_checkout (s : SessionState) (r : Response)
    (h : stateOK s = true) :
    stateOK (checkout s r).state = true := by
  unfold checkout
  split
  · exact h
  · split
    · unfold stateOK at h ⊢
      rw [Bool.and_eq_true] at h ⊢
      exact ⟨h.1, rfl⟩
    · exact h

theorem stateOK_on_start (r : Response) : stateOK (on_start r).state = true := by
  unfold on_start stateOK
  rw [Bool.and_eq_true]
  refine ⟨load_products_idsOK _ r rfl, ?_⟩
  unfold cartOK
  rw [load_products_cart]
  rfl

theorem stateOK_step {s t : SessionState} (hst : Step s t)
    (h : stateOK s = true) : stateOK t = true := by
  cases hst with
  | index => exact h
  | set_currency => exact h
  | browse_product r pick => exact stateOK_browse s r pick h
  | add_to_cart r pick q => exact stateOK_add s r pick q h
  | view_cart => exact h
  | checkout r => exact stateOK_checkout s r h

theorem stateOK_reachable (s : SessionState) (h : Reachable s) :
    stateOK s = true := by
  obtain ⟨r, hr⟩ := h
  induction hr with
  | refl => exact stateOK_on_start r
  | tail _ hstep ih => exact stateOK_step hstep ih

/-- The six task names of `OnlineBoutiqueUser`. -/
inductive ActionName where
  | index
  | setCurrency
  | browseProduct
  | addToCart
  | viewCart
  | checkout
deriving DecidableEq, Repr

/-- The `@task(w)` weight table exactly as the source declares it:
index 1, setCurrency 2, browseProduct 10, addToCart 2, viewCart 3,
checkout 1. -/
def task_weights : List (ActionName × Nat) :=
  [(ActionName.index, 1), (ActionName.setCurrency, 2),
   (ActionName.browseProduct, 10), (ActionName.addToCart, 2),
   (ActionName.viewCart, 3), (ActionName.checkout, 1)]

/-- The sum of all task weights. -/
def total_weight : Nat := (task_weights.map Prod.snd).sum

/-- Modelled from the spec: the weighted selector's cumulative-range lookup
(the selection mechanism itself lives in the Locust library, not in the
repository source; only the weight table is in the source).  Given the value
`v` drawn in `[0, total)`, return the descriptor whose cumulative-weight
range contains `v`. -/
def selectFrom : List (ActionName × Nat) → Nat → ActionName
  | [], _ => ActionName.index
  | (a, w) :: rest, v => if v < w then a else selectFrom rest (v - w)

/-- Modelled from the spec: `select_action` draws a uniform value `v` in
`[0, total_weight)` and locates the action whose cumulative range contains
it, over the source's weight table. -/
def select_action (v : Nat) : ActionName := selectFrom task_weights v

/-- An action descriptor of the spec's data model: a name and an integer
weight. -/
structure ActionDescriptor where
  name : String
  weight : Int
deriving DecidableEq, Repr

/-- Modelled from the spec: registry construction with its startup
validation (absent from the repository source, which hard-codes positive
weights through library decorators).  The total weight is validated to be
positive; zero descriptors or an all-nonpositive weight table therefore
fails with a ConfigurationError instead of producing a registry. -/
def build_registry (ds : List ActionDescriptor) :
    Except String (List ActionDescriptor) :=
  if (ds.map ActionDescriptor.weight).sum ≤ 0 then
    Except.error "ConfigurationError"
  else
    Except.ok ds

/-- Modelled from the spec: the think-time pacer `between(a, b)` of the
Locust library (only the bounds `1.0, 3.0` are in the repository source)
maps one fresh uniform draw `u ∈ [0, 1]` to `a + (b - a) * u`. -/
def between (a b u : ℚ) : ℚ := a + (b - a) * u

/-- The source's `wait_time = between(1.0, 3.0)`, applied to one uniform
draw. -/
def wait_time (u : ℚ) : ℚ := between 1 3 u

/-- The name a result mark is recorded under. -/
def reportName : Report → String
  | Report.success n => n
  | Report.failure n _ => n

/-- No request in the list is a product-detail request with an empty
identifier (a `GET` named `product` whose path is the bare `/product/`). -/
def noEmptyDetail (l : List Request) : Bool :=
  l.all fun q =>
    match q with
    | Request.get p n => !(n == "product" && p == "/product/")
    | _ => true

theorem list_sum_nonpos :
    ∀ l : List Int, (∀ x ∈ l, x ≤ 0) → l.sum ≤ 0
  | [], _ => le_refl 0
  | x :: xs, h => by
    rw [List.sum_cons]
    have h1 := h x (List.mem_cons_self x xs)
    have h2 := list_sum_nonpos xs fun y hy => h y (List.mem_cons_of_mem x hy)
    omega

theorem append_detail_ne (pid : String) (h : pid ≠ "") :
    ("/product/" ++ pid) ≠ "/product/" := by
  intro he
  apply h
  have hlen := congrArg String.length he
  rw [String.length_append] at hlen
  have h0 : pid.length = 0 := by omega
  exact String.ext (List.length_eq_zero.mp h0)

theorem load_products_ok (s : SessionState) (r : Response)
    (h : r.ok = true) :
    load_products s r =
      { state := { s with product_ids := PRODUCT_HREF_RE_findall r.body }
        requests := [indexRequest]
        reports := [Report.success "index"] } := by
  unfold load_products
  rw [h]
  rfl

theorem load_products_fail (s : SessionState) (r : Response)
    (h : r.ok = false) :
    load_products s r =
      { state := s
        requests := [indexRequest]
        reports := [Report.failure "index"
          ("Index failed with " ++ toString r.status_code)] } := by
  unfold load_products
  rw [h]
  rfl

theorem choose_product_nonempty (s : SessionState) (r : Response) (pick : Nat)
    (h : s.product_ids ≠ []) :
    choose_product s r pick =
      ({ state := s, requests := [], reports := [] },
        s.product_ids.getD (pick % s.product_ids.length) "") := by
  unfold choose_product
  have h1 : s.product_ids.isEmpty = false := by
    simpa [List.isEmpty_iff] using h
  simp [h1]

theorem choose_product_empty_eq (s : SessionState) (r : Response) (pick : Nat)
    (h : s.product_ids = []) :
    choose_product s r pick =
      (if (load_products s r).state.product_ids.isEmpty then
        (load_products s r, "")
      else
        (load_products s r,
          (load_products s r).state.product_ids.getD
            (pick % (load_products s r).state.product_ids.length) "")) := by
  unfold choose_product
  simp [h]

theorem browse_product_eq (s : SessionState) (r : Response) (pick : Nat) :
    browse_product s r pick =
      (if (choose_product s r pick).2 = "" then (choose_product s r pick).1
       else
        { (choose_product s r pick).1 with
            requests := (choose_product s r pick).1.requests ++
              [Request.get ("/product/" ++ (choose_product s r pick).2)
                "product"] }) := rfl

theorem add_to_cart_nonempty (s : SessionState) (r : Response) (pick q : Nat)
    (h : s.product_ids ≠ [])
    (hpid : s.product_ids.getD (pick % s.product_ids.length) "" ≠ "") :
    add_to_cart s r pick q =
      { state := { s with cart_items := s.cart_items ++
          [⟨s.product_ids.getD (pick % s.product_ids.length) "",
            randint13 q⟩] }
        requests := [Request.post "/cart" "cart:add"
          [("product_id", s.product_ids.getD (pick % s.product_ids.length) ""),
           ("quantity", toString (randint13 q))]]
        reports := [] } := by
  unfold add_to_cart
  rw [choose_product_nonempty s r pick h]
  simp only [List.getD, List.get?_eq_getElem?] at hpid
  simp [hpid]

theorem choose_product_requests (s : SessionState) (r : Response)
    (pick : Nat) :
    (choose_product s r pick).1.requests = [] ∨
      (choose_product s r pick).1.requests = [indexRequest] := by
  unfold choose_product
  split <;> dsimp only <;> split
  · right; exact load_products_requests s r
  · right; exact load_products_requests s r
  · left; rfl
  · left; rfl

theorem add_to_cart_X (c : List CartLine) (r : Response) (pick q : Nat) :
    (add_to_cart { product_ids := ["X"], cart_items := c } r pick q).state =
      { product_ids := ["X"], cart_items := c ++ [⟨"X", randint13 q⟩] } := by
  rw [add_to_cart_nonempty _ r pick q (by simp) (by simp [Nat.mod_one])]
  simp [Nat.mod_one]

/-- C1: `checkout` with an empty cart issues zero requests and leaves the
entire session state unchanged; with a non-empty cart it issues exactly the
one checkout request (with the fixed synthetic payload), leaves the known
catalog alone, clears the cart when the response signals success, and on a
failure signal leaves the cart line-for-line identical while recording the
failure on the result channel. -/
theorem c1_checkout_spec (s : SessionState) (r : Response) :
    (s.cart_items = [] →
      checkout s r = { state := s, requests := [], reports := [] }) ∧
    (s.cart_items ≠ [] →
      (checkout s r).requests = [checkoutRequest] ∧
      (checkout s r).state.product_ids = s.product_ids ∧
      (r.ok = true → (checkout s r).state.cart_items = []) ∧
      (r.ok = false →
        (checkout s r).state.cart_items = s.cart_items ∧
        (checkout s r).reports = [Report.failure "cart:checkout"
          ("Checkout failed with " ++ toString r.status_code)])) := by
  unfold checkout
  constructor
  · intro h
    simp [h]
  · intro h
    have hne : s.cart_items.isEmpty = false := by
      simpa [List.isEmpty_iff] using h
    cases hok : r.ok <;> simp [hne, hok]

/-- Witness for C1: an empty cart skips entirely; a failed checkout of a
one-line cart leaves that line in place. -/
theorem c1_checkout_spec_witness :
    checkout { product_ids := ["OLJCESPC7Z"], cart_items := [] }
        { ok := true, status_code := 200, body := "" } =
      { state := { product_ids := ["OLJCESPC7Z"], cart_items := [] }
        requests := []
        reports := [] } ∧
    (checkout { product_ids := [], cart_items := [⟨"OLJCESPC7Z", 2⟩] }
        { ok := false, status_code := 500, body := "" }).state.cart_items =
      [⟨"OLJCESPC7Z", 2⟩] :=
  ⟨(c1_checkout_spec _ _).1 rfl,
   (((c1_checkout_spec _ _).2 (by simp)).2.2.2 rfl).1⟩

/-- C2: an `add_to_cart` execution that selects an item appends the new line
`(item, quantity)` at the end of the cart and leaves the catalog unchanged;
the handler never reads the add request's response, so the cart does not
depend on the request's outcome.  Two successive executions selecting item
`X` with quantities 2 and 1 leave the two lines `(X, 2)` and `(X, 1)` at the
end of the cart, in that order, unmerged. -/
theorem c2_add_to_cart_appends (s : SessionState) (r r2 : Response)
    (pick q pick2 q2 : Nat) (c : List CartLine)
    (hne : s.product_ids ≠ [])
    (hpid : s.product_ids.getD (pick % s.product_ids.length) "" ≠ "") :
    ((add_to_cart s r pick q).state.cart_items =
      s.cart_items ++
        [⟨s.product_ids.getD (pick % s.product_ids.length) "",
          randint13 q⟩] ∧
     (add_to_cart s r pick q).state.product_ids = s.product_ids) ∧
    (randint13 q = 2 → randint13 q2 = 1 →
      (add_to_cart
          (add_to_cart { product_ids := ["X"], cart_items := c } r pick q).state
          r2 pick2 q2).state.cart_items =
        c ++ [⟨"X", 2⟩, ⟨"X", 1⟩]) := by
  constructor
  · rw [add_to_cart_nonempty s r pick q hne hpid]
    exact ⟨rfl, rfl⟩
  · intro hq hq2
    rw [add_to_cart_X, add_to_cart_X, hq, hq2]
    simp

/-- Witness for C2: from the catalog `["X"]` and an empty cart, the quantity
oracles `1` and `0` give `randint(1,3)` values 2 and 1, and the two calls
leave exactly the lines `(X, 2)` then `(X, 1)`. -/
theorem c2_add_to_cart_appends_witness :
    (add_to_cart { product_ids := ["X"], cart_items := [] }
        { ok := true, status_code := 200, body := "" } 0 1).state.cart_items =
      [⟨"X", 2⟩] ∧
    (add_to_cart
        (add_to_cart { product_ids := ["X"], cart_items := [] }
          { ok := true, status_code := 200, body := "" } 0 1).state
        { ok := false, status_code := 500, body := "" } 0 0).state.cart_items =
      [⟨"X", 2⟩, ⟨"X", 1⟩] := by
  have h := c2_add_to_cart_appends
    { product_ids := ["X"], cart_items := [] }
    { ok := true, status_code := 200, body := "" }
    { ok := false, status_code := 500, body := "" }
    0 1 0 0 [] (by simp) (by simp)
  exact ⟨by simpa using h.1.1, by simpa using h.2 rfl rfl⟩

theorem detail_ne_index (p : String) :
    Request.get p "product" ≠ indexRequest := by
  intro h
  unfold indexRequest at h
  injection h with h1 h2
  exact absurd h2 (by decide)

theorem count_index_detail (p : String) :
    List.count indexRequest
      ([indexRequest] ++ [Request.get p "product"]) = 1 := by
  rw [List.count_append]
  have h0 : List.count indexRequest [Request.get p "product"] = 0 := by
    rw [List.count_eq_zero]
    intro hmem
    rw [List.mem_singleton] at hmem
    exact detail_ne_index p hmem.symm
  rw [h0]
  decide

/-- C4: when the known catalog is empty, `browse_product` performs exactly
one re-discovery attempt (one index request, whose body is run through the
extractor); when the catalog is still empty afterwards, the cycle is skipped:
its requests are just that one index request (no product-detail request) and
every result mark it records belongs to the index request, none to the
browse action.  From any reachable state, a product-detail request is never
issued with an empty identifier. -/
theorem c4_browse_product_spec (s : SessionState) (r : Response)
    (pick : Nat) :
    (s.product_ids = [] →
      (browse_product s r pick).requests.count indexRequest = 1 ∧
      ((browse_product s r pick).state.product_ids = [] →
        (browse_product s r pick).requests = [indexRequest] ∧
        ((browse_product s r pick).reports.all
          fun rep => reportName rep == "index") = true)) ∧
    (Reachable s → noEmptyDetail (browse_product s r pick).requests = true) := by
  constructor
  · intro h
    rw [browse_product_eq, choose_product_empty_eq s r pick h]
    have hreports : ((load_products s r).reports.all
        fun rep => reportName rep == "index") = true := by
      cases hok : r.ok
      · rw [load_products_fail s r hok]; simp [reportName]
      · rw [load_products_ok s r hok]; simp [reportName]
    have hreq := load_products_requests s r
    cases hlp : (load_products s r).state.product_ids.isEmpty with
    | true =>
      simp only [hlp, if_true]
      exact ⟨by rw [hreq]; decide, fun _ => ⟨hreq, hreports⟩⟩
    | false =>
      have hne : (load_products s r).state.product_ids ≠ [] := by
        simpa [List.isEmpty_iff] using hlp
      simp only [hlp, Bool.false_eq_true, if_false]
      by_cases hpid : (load_products s r).state.product_ids.getD
          (pick % (load_products s r).state.product_ids.length) "" = ""
      · rw [if_pos hpid]
        exact ⟨by rw [hreq]; decide, fun habs => absurd habs hne⟩
      · rw [if_neg hpid]
        dsimp only
        refine ⟨?_, fun habs => absurd habs hne⟩
        rw [hreq]
        exact count_index_detail _
  · intro hreach
    have hids : idsOK s = true := by
      have h2 := stateOK_reachable s hreach
      unfold stateOK at h2
      rw [Bool.and_eq_true] at h2
      exact h2.1
    rw [browse_product_eq]
    by_cases hp : (choose_product s r pick).2 = ""
    · rw [if_pos hp]
      rcases choose_product_requests s r pick with hq | hq <;> rw [noEmptyDetail, hq] <;> decide
    · rw [if_neg hp]
      show noEmptyDetail ((choose_product s r pick).1.requests ++ _) = true
      rw [noEmptyDetail, List.all_append, Bool.and_eq_true]
      constructor
      · rcases choose_product_requests s r pick with hq | hq <;> rw [hq] <;> decide
      · have hne := append_detail_ne _ hp
        simp [hne]

/-- Witness for C4: from the reachable empty-catalog state after a failed
startup, a browse cycle issues exactly the one re-discovery index request and
no empty-identifier detail request. -/
theorem c4_browse_product_spec_witness :
    (browse_product { product_ids := [], cart_items := [] }
        { ok := false, status_code := 500, body := "" } 0).requests.count
      indexRequest = 1 ∧
    noEmptyDetail (browse_product { product_ids := [], cart_items := [] }
        { ok := false, status_code := 500, body := "" } 0).requests = true := by
  have h := c4_browse_product_spec { product_ids := [], cart_items := [] }
    { ok := false, status_code := 500, body := "" } 0
  exact ⟨(h.1 rfl).1,
    h.2 ⟨{ ok := false, status_code := 500, body := "" },
      Relation.ReflTransGen.refl⟩⟩

/-- C3: catalog discovery is a pure function of the body: on a body holding
`href="/product/ABC-1"` and `href="/product/OLJCESPC7Z"` it yields exactly
the ids `ABC-1` and `OLJCESPC7Z` (as a set, `{ABC-1, OLJCESPC7Z}`); on every
body with no matching substring — no decomposition
`pre ++ "/product/" ++ d :: rest` with `d` an id character — it yields the
empty result rather than an error; and equal inputs always yield equal
outputs. -/
theorem c3_discovery_pure (s t : String) :
    PRODUCT_HREF_RE_findall
        "<a href=\"/product/ABC-1\"> <a href=\"/product/OLJCESPC7Z\">" =
      ["ABC-1", "OLJCESPC7Z"] ∧
    (PRODUCT_HREF_RE_findall
        "<a href=\"/product/ABC-1\"> <a href=\"/product/OLJCESPC7Z\">").toFinset =
      ({"ABC-1", "OLJCESPC7Z"} : Finset String) ∧
    (¬ HasProductMatch s.data → PRODUCT_HREF_RE_findall s = []) ∧
    PRODUCT_HREF_RE_findall "no matching substring here" = [] ∧
    PRODUCT_HREF_RE_findall t = PRODUCT_HREF_RE_findall t :=
  ⟨by decide, by decide,
   by
    intro h
    unfold PRODUCT_HREF_RE_findall
    exact findIdsAux_no_match _ _ h,
   by decide, rfl⟩

/-- Witness for C3: the matchless body `hello world` is certified matchless
by the executable scan, and discovery applied through the universal clause
returns the empty result on it. -/
theorem c3_discovery_pure_witness :
    PRODUCT_HREF_RE_findall "hello world" = [] :=
  (c3_discovery_pure "hello world" "").2.2.1
    (not_hasMatch_of_scan _ (by decide))

/-- C5: the weighted selector returns the action whose cumulative-weight
range contains the uniform draw; over the source's weight table (index 1,
setCurrency 2, browseProduct 10, addToCart 2, viewCart 3, checkout 1; total
19) each action is selected on exactly its weight's worth of the 19 equally
likely draw values, so each action `i` has probability `weight_i / 19` and
browseProduct in particular `10 / 19`. -/
theorem c5_weighted_selection :
    total_weight = 19 ∧
    (task_weights.all fun p =>
      ((List.range total_weight).filter fun v =>
        decide (select_action v = p.1)).length == p.2) = true ∧
    ((List.range total_weight).filter fun v =>
      decide (select_action v = ActionName.browseProduct)).length = 10 :=
  ⟨rfl, by decide, by decide⟩

/-- C6: building the registry with zero descriptors, or with every weight
nonpositive (total weight not greater than zero), yields the
ConfigurationError instead of a registry value, so no sampling stage can
ever receive such a registry. -/
theorem c6_registry_validation (ds : List ActionDescriptor)
    (h : ds = [] ∨ ∀ d ∈ ds, d.weight ≤ 0) :
    build_registry ds = Except.error "ConfigurationError" := by
  unfold build_registry
  have hsum : (ds.map ActionDescriptor.weight).sum ≤ 0 := by
    rcases h with h | h
    · rw [h]; simp
    · refine list_sum_nonpos _ ?_
      intro x hx
      obtain ⟨d, hd, rfl⟩ := List.mem_map.mp hx
      exact h d hd
  rw [if_pos hsum]

/-- Witness for C6: the empty descriptor list fails construction. -/
theorem c6_registry_validation_witness :
    build_registry [] = Except.error "ConfigurationError" :=
  c6_registry_validation [] (Or.inl rfl)

/-- C7: when the initial index request fails, `on_start` still returns
normally: the session enters its task loop holding an empty catalog and an
empty cart, with the failure recorded on the result channel against the
index request; the task loop can step from the resulting state. -/
theorem c7_startup_failure_isolated (r : Response) (h : r.ok = false) :
    on_start r =
      { state := { product_ids := [], cart_items := [] }
        requests := [indexRequest]
        reports := [Report.failure "index"
          ("Index failed with " ++ toString r.status_code)] } ∧
    Step (on_start r).state (view_cart (on_start r).state).state :=
  ⟨by unfold on_start; rw [load_products_fail _ _ h], Step.view_cart _⟩

/-- Witness for C7 at a concrete 503 startup failure. -/
theorem c7_startup_failure_isolated_witness :
    on_start { ok := false, status_code := 503, body := "" } =
      { state := { product_ids := [], cart_items := [] }
        requests := [indexRequest]
        reports := [Report.failure "index"
          ("Index failed with " ++ toString (503 : Nat))] } ∧
    Step (on_start { ok := false, status_code := 503, body := "" }).state
      (view_cart
        (on_start { ok := false, status_code := 503, body := "" }).state).state :=
  c7_startup_failure_isolated { ok := false, status_code := 503, body := "" }
    rfl

/-- C8: the index, setCurrency and viewCart handlers leave the session state
(catalog and cart) exactly as it was; setCurrency picks its code out of the
fixed six-element currency list (the oracle residues `0..5` enumerate the
list exactly, so a uniform draw selects uniformly among the six distinct
codes) and posts it. -/
theorem c8_stateless_handlers (s : SessionState) (pick : Nat) :
    (index s).state = s ∧
    (view_cart s).state = s ∧
    (set_currency s pick).state = s ∧
    CURRENCIES = ["USD", "EUR", "JPY", "GBP", "CAD", "AUD"] ∧
    (set_currency s pick).requests =
      [Request.post "/setCurrency" "setCurrency"
        [("currency_code", CURRENCIES.getD (pick % CURRENCIES.length) "")]] ∧
    CURRENCIES.getD (pick % CURRENCIES.length) "" ∈ CURRENCIES ∧
    ((List.range CURRENCIES.length).map fun i =>
      CURRENCIES.getD (i % CURRENCIES.length) "") = CURRENCIES ∧
    CURRENCIES.Nodup := by
  refine ⟨rfl, rfl, rfl, rfl, rfl, ?_, by decide, by decide⟩
  have hmod : pick % CURRENCIES.length < CURRENCIES.length :=
    Nat.mod_lt _ (by decide)
  rw [List.getD_eq_getElem _ _ hmod]
  exact List.getElem_mem hmod

/-- C9: one think-time draw maps a uniform `u ∈ [0, 1]` through
`between(1.0, 3.0)`, so every delay lies in the closed interval `[1, 3]`;
distinct draws can give distinct delays, so the per-cycle re-sampled
sequence is not forced constant. -/
theorem c9_wait_time_spec :
    (∀ u : ℚ, 0 ≤ u → u ≤ 1 → 1 ≤ wait_time u ∧ wait_time u ≤ 3) ∧
    wait_time 0 ≠ wait_time 1 := by
  constructor
  · intro u h0 h1
    unfold wait_time between
    constructor <;> nlinarith
  · unfold wait_time between
    norm_num

/-- Witness for C9 at the draw `u = 1/2`. -/
theorem c9_wait_time_spec_witness :
    (0 : ℚ) ≤ 1 / 2 ∧ (1 / 2 : ℚ) ≤ 1 ∧
    1 ≤ wait_time (1 / 2) ∧ wait_time (1 / 2) ≤ 3 :=
  ⟨by norm_num, by norm_num,
   (c9_wait_time_spec.1 (1 / 2) (by norm_num) (by norm_num)).1,
   (c9_wait_time_spec.1 (1 / 2) (by norm_num) (by norm_num)).2⟩

/-- C10: in every reachable session state, every cart line's quantity lies
between 1 and 3 inclusive (in particular it is a positive integer): lines
are only ever appended with quantities from the `randint(1, 3)` model. -/
theorem c10_cart_quantity_invariant (s : SessionState) (h : Reachable s) :
    (s.cart_items.all fun l =>
      decide (1 ≤ l.quantity) && decide (l.quantity ≤ 3)) = true := by
  have h2 := stateOK_reachable s h
  unfold stateOK at h2
  rw [Bool.and_eq_true] at h2
  exact h2.2

/-- The index response used to build the C10 witness state. -/
def c10WitnessResponse : Response :=
  { ok := true, status_code := 200, body := "/product/AAA" }

/-- The session state right after `on_start` for the C10 witness. -/
def c10WitnessStart : SessionState := (on_start c10WitnessResponse).state

/-- A reachable state with a non-empty cart: one `add_to_cart` step after
startup. -/
def c10WitnessState : SessionState :=
  (add_to_cart c10WitnessStart c10WitnessResponse 0 1).state

/-- Witness for C10 at a concrete reachable state holding one cart line. -/
theorem c10_cart_quantity_invariant_witness :
    (c10WitnessState.cart_items.all fun l =>
      decide (1 ≤ l.quantity) && decide (l.quantity ≤ 3)) = true :=
  c10_cart_quantity_invariant c10WitnessState
    ⟨c10WitnessResponse,
      Relation.ReflTransGen.tail Relation.ReflTransGen.refl
        (Step.add_to_cart c10WitnessStart c10WitnessResponse 0 1)⟩
